import Mathlib

set_option maxRecDepth 8000

/-!
# DeFiGuardian core pipeline: shallow embedding and verification

Shallow embedding of the fraud-scoring core of the repository:
`src/agent/src/features.py` (feature extraction) and
`src/agent/src/model.py` (prediction, attribution).

Modelling conventions:
* Python floats are modelled as exact rationals (`ℚ`); all arithmetic in
  the embedded pipeline (division by `10^18`, by `60`, `np.mean`) is exact
  rational arithmetic.
* A raw transaction record is a dictionary whose fields may be absent;
  we model each field as an `Option`.  Etherscan delivers numeric fields
  as decimal strings, so a present `timeStamp`/`value` is a nonempty
  digit string and Python truthiness of a present field coincides with
  `Option.isSome`; we store the parsed integer directly.
* Python dictionaries read at string keys are modelled as total functions
  `String → FVal` (`dict.get` with a default is plain application, since
  the feature dictionary is seeded from the full defaults table).
-/

/-- A feature value: numeric (Python `int`/`float`, as an exact rational)
or categorical (Python `str`). -/
inductive FVal where
  | num (q : ℚ)
  | str (s : String)
deriving DecidableEq, Repr

/-- The feature dictionary: total map from field name to value. -/
def Features : Type := String → FVal

/-- Dictionary update `features[k] = v`. -/
def upd (f : Features) (k : String) (v : FVal) : Features :=
  fun q => if q = k then v else f q

/-- Dictionary self-read update `features[k] = features[kSrc]`. -/
def updRead (k kSrc : String) (f : Features) : Features :=
  upd f k (f kSrc)

/-- A Python `if c:` block of dictionary updates: apply `g` when `c`
holds, else leave the dictionary unchanged. -/
def applyIf (c : Prop) [Decidable c] (g : Features → Features) (f : Features) : Features :=
  if c then g f else f

/-- A raw transaction record (native-currency or token transfer); every
field may be absent, mirroring `tx.get(...)` access in the source. -/
structure Tx where
  fromAddr : Option String := none
  toAddr : Option String := none
  value : Option Nat := none
  timeStamp : Option Nat := none
  contractAddress : Option String := none
  inputData : Option String := none
  tokenSymbol : Option String := none
deriving DecidableEq, Repr

/-- Embeds `FEATURE_COLUMNS` from `features.py`: the 47 field names, in trained
column order, character for character (note the trailing space in
`"max value received "` and the leading spaces on ERC-20 fields). -/
def FEATURE_COLUMNS : List String := [
  "Avg min between sent tnx",
  "Avg min between received tnx",
  "Time Diff between first and last (Mins)",
  "Sent tnx",
  "Received Tnx",
  "total transactions (including tnx to create contract",
  "Number of Created Contracts",
  "Unique Received From Addresses",
  "Unique Sent To Addresses",
  "min value received",
  "max value received ",
  "avg val received",
  "min val sent",
  "max val sent",
  "avg val sent",
  "total Ether sent",
  "total ether received",
  "total ether balance",
  "min value sent to contract",
  "max val sent to contract",
  "avg value sent to contract",
  "total ether sent contracts",
  " Total ERC20 tnxs",
  " ERC20 total Ether received",
  " ERC20 total ether sent",
  " ERC20 total Ether sent contract",
  " ERC20 uniq sent addr",
  " ERC20 uniq rec addr",
  " ERC20 uniq sent addr.1",
  " ERC20 uniq rec contract addr",
  " ERC20 avg time between sent tnx",
  " ERC20 avg time between rec tnx",
  " ERC20 avg time between rec 2 tnx",
  " ERC20 avg time between contract tnx",
  " ERC20 min val rec",
  " ERC20 max val rec",
  " ERC20 avg val rec",
  " ERC20 min val sent",
  " ERC20 max val sent",
  " ERC20 avg val sent",
  " ERC20 min val sent contract",
  " ERC20 max val sent contract",
  " ERC20 avg val sent contract",
  " ERC20 uniq sent token name",
  " ERC20 uniq rec token name",
  " ERC20 most sent token type",
  " ERC20_most_rec_token_type"]

/-- Embeds `FEATURE_DEFAULTS` from `features.py` as an association list
(decimal literals rendered as exact rationals). -/
def FEATURE_DEFAULTS_LIST : List (String × FVal) := [
  ("Avg min between sent tnx", .num (84426/100)),
  ("Avg min between received tnx", .num (491029/100)),
  ("Time Diff between first and last (Mins)", .num (17791847/100)),
  ("Sent tnx", .num 10),
  ("Received Tnx", .num 5),
  ("total transactions (including tnx to create contract", .num 15),
  ("Number of Created Contracts", .num 0),
  ("Unique Received From Addresses", .num 3),
  ("Unique Sent To Addresses", .num 5),
  ("min value received", .num 0),
  ("max value received ", .num 1),
  ("avg val received", .num (1/10)),
  ("min val sent", .num 0),
  ("max val sent", .num (1/2)),
  ("avg val sent", .num (1/10)),
  ("total Ether sent", .num 1),
  ("total ether received", .num 1),
  ("total ether balance", .num (1/10)),
  ("min value sent to contract", .num 0),
  ("max val sent to contract", .num 0),
  ("avg value sent to contract", .num 0),
  ("total ether sent contracts", .num 0),
  (" Total ERC20 tnxs", .num 0),
  (" ERC20 total Ether received", .num 0),
  (" ERC20 total ether sent", .num 0),
  (" ERC20 total Ether sent contract", .num 0),
  (" ERC20 uniq sent addr", .num 0),
  (" ERC20 uniq rec addr", .num 0),
  (" ERC20 uniq sent addr.1", .num 0),
  (" ERC20 uniq rec contract addr", .num 0),
  (" ERC20 avg time between sent tnx", .num 0),
  (" ERC20 avg time between rec tnx", .num 0),
  (" ERC20 avg time between rec 2 tnx", .num 0),
  (" ERC20 avg time between contract tnx", .num 0),
  (" ERC20 min val rec", .num 0),
  (" ERC20 max val rec", .num 0),
  (" ERC20 avg val rec", .num 0),
  (" ERC20 min val sent", .num 0),
  (" ERC20 max val sent", .num 0),
  (" ERC20 avg val sent", .num 0),
  (" ERC20 min val sent contract", .num 0),
  (" ERC20 max val sent contract", .num 0),
  (" ERC20 avg val sent contract", .num 0),
  (" ERC20 uniq sent token name", .num 0),
  (" ERC20 uniq rec token name", .num 0),
  (" ERC20 most sent token type", .str "None"),
  (" ERC20_most_rec_token_type", .str "None")]

/-- The defaults dictionary, as the total map reading
`FEATURE_DEFAULTS_LIST` (keys outside the table never occur in the
pipeline; they read as `.num 0`). -/
def FEATURE_DEFAULTS : Features := fun k =>
  match FEATURE_DEFAULTS_LIST.find? (fun kv => kv.1 = k) with
  | some kv => kv.2
  | none => .num 0

/-- Embeds `wei_to_ether` from `features.py`: `int(wei) / 1e18`, on an
already-parsed integer. -/
def wei_to_ether (wei : Nat) : ℚ := (wei : ℚ) / 10 ^ 18

/-- Minimum of a Python list; only ever applied to nonempty lists
(Python `min([])` raises, and the source guards every call). -/
def listMin : List ℚ → ℚ
  | [] => 0
  | x :: xs => xs.foldl min x

/-- Maximum of a Python list; only ever applied to nonempty lists. -/
def listMax : List ℚ → ℚ
  | [] => 0
  | x :: xs => xs.foldl max x

/-- Embeds `np.mean` on a list of floats, as exact rational mean. -/
def qmean (l : List ℚ) : ℚ := l.sum / l.length

/-- The consecutive gaps of a list, each divided by 60
(`[(ts[i+1] - ts[i]) / 60 for i ...]`). -/
def consecutiveDiffs (l : List Nat) : List ℚ :=
  (l.zip l.tail).map (fun p => ((p.2 : ℚ) - (p.1 : ℚ)) / 60)

/-- Embeds `compute_avg_time_between` from `features.py`: average minutes
between consecutive timestamps.  Python `sorted` is a stable ascending
sort; on the total order `Nat.le` every stable sort agrees, so it is
embedded as `List.insertionSort (· ≤ ·)`. -/
def compute_avg_time_between (timestamps : List Nat) : ℚ :=
  if timestamps.length < 2 then 0
  else
    let sorted := timestamps.insertionSort (· ≤ ·)
    let diffs := consecutiveDiffs sorted
    if diffs = [] then 0 else qmean diffs

/-- Truthiness-guarded lowercasing used by the set comprehensions
`{tx.get(k, "").lower() for tx in txs if tx.get(k)}`: a missing or empty
string field yields nothing. -/
def truthyLower (o : Option String) : Option String :=
  match o with
  | some s => if s = "" then none else some s.toLower
  | none => none

/-- Embeds `tx.get("from", "").lower()`. -/
def txFromLower (tx : Tx) : String := (tx.fromAddr.getD "").toLower

/-- Embeds `tx.get("to", "").lower()`. -/
def txToLower (tx : Tx) : String := (tx.toAddr.getD "").toLower

/-- The "sent" partition: native transactions whose lowercased `from`
equals the (already lowercased) target address. -/
def sentTxs (address : String) (eth_txs : List Tx) : List Tx :=
  eth_txs.filter (fun tx => txFromLower tx = address)

/-- The "received" partition: native transactions whose lowercased `to`
equals the (already lowercased) target address. -/
def receivedTxs (address : String) (eth_txs : List Tx) : List Tx :=
  eth_txs.filter (fun tx => txToLower tx = address)

/-- The set of distinct lowercased non-empty `contractAddress` values,
as a duplicate-free list. -/
def contractCreations (eth_txs : List Tx) : List String :=
  (eth_txs.filterMap (fun tx => truthyLower tx.contractAddress)).dedup

/-- Per-transaction converted native values, `wei_to_ether(tx.get("value", 0))`:
a missing `value` is coerced to 0. -/
def txValuesEther (txs : List Tx) : List ℚ :=
  txs.map (fun tx => wei_to_ether (tx.value.getD 0))

/-- The timestamp list `[int(tx["timeStamp"]) for tx in txs if tx.get("timeStamp")]`:
records lacking a timestamp are excluded. -/
def txTimestamps (txs : List Tx) : List Nat :=
  txs.filterMap (fun tx => tx.timeStamp)

/-- Python `most_common(1)[0][0]` on a `Counter` built from `l`: the
element with the greatest count, ties broken by first encounter. -/
def mostCommon (l : List String) : String :=
  let uniq := l.foldl (fun acc x => if x ∈ acc then acc else acc ++ [x]) []
  match uniq with
  | [] => ""
  | x :: xs =>
      xs.foldl (fun best c =>
        if (l.filter (fun y => y = c)).length > (l.filter (fun y => y = best)).length
        then c else best) x

/-- The token-activity block of `compute_features` (the body of
`if token_txs:`), applied to the feature dictionary built so far. -/
def tokenBlock (address : String) (token_txs : List Tx)
    (contract_creations : List String) (f0 : Features) : Features :=
  let sent_tokens := token_txs.filter (fun tx => txFromLower tx = address)
  let received_tokens := token_txs.filter (fun tx => txToLower tx = address)
  let contract_tokens := sent_tokens.filter
    (fun tx => contract_creations.contains (txToLower tx))
  let sent_token_values := txValuesEther sent_tokens
  let received_token_values := txValuesEther received_tokens
  let contract_token_values := txValuesEther contract_tokens
  let sent_token_ts := txTimestamps sent_tokens
  let received_token_ts := txTimestamps received_tokens
  let contract_token_ts := txTimestamps contract_tokens
  let sent_token_names := sent_tokens.map (fun tx => tx.tokenSymbol.getD "Unknown")
  let received_token_names := received_tokens.map (fun tx => tx.tokenSymbol.getD "Unknown")
  let f1 := upd f0 " Total ERC20 tnxs" (.num token_txs.length)
  let f2 := upd f1 " ERC20 total ether sent" (.num sent_token_values.sum)
  let f3 := upd f2 " ERC20 total Ether received" (.num received_token_values.sum)
  let f4 := upd f3 " ERC20 total Ether sent contract" (.num contract_token_values.sum)
  let f5 := upd f4 " ERC20 uniq sent addr"
    (.num ((sent_tokens.map txToLower).dedup.length))
  let f6 := upd f5 " ERC20 uniq rec addr"
    (.num ((received_tokens.map txFromLower).dedup.length))
  let f7 := updRead " ERC20 uniq sent addr.1" " ERC20 uniq sent addr" f6
  let f8 := upd f7 " ERC20 uniq rec contract addr"
    (.num ((contract_tokens.map txFromLower).dedup.length))
  let f9 := upd f8 " ERC20 avg time between sent tnx"
    (.num (compute_avg_time_between sent_token_ts))
  let f10 := upd f9 " ERC20 avg time between rec tnx"
    (.num (compute_avg_time_between received_token_ts))
  let f11 := updRead " ERC20 avg time between rec 2 tnx" " ERC20 avg time between rec tnx" f10
  let f12 := upd f11 " ERC20 avg time between contract tnx"
    (.num (compute_avg_time_between contract_token_ts))
  let f13 := applyIf (received_token_values ≠ []) (fun f =>
      upd (upd (upd f
        " ERC20 min val rec" (.num (listMin received_token_values)))
        " ERC20 max val rec" (.num (listMax received_token_values)))
        " ERC20 avg val rec" (.num (qmean received_token_values))) f12
  let f14 := applyIf (sent_token_values ≠ []) (fun f =>
      upd (upd (upd f
        " ERC20 min val sent" (.num (listMin sent_token_values)))
        " ERC20 max val sent" (.num (listMax sent_token_values)))
        " ERC20 avg val sent" (.num (qmean sent_token_values))) f13
  let f15 := applyIf (contract_token_values ≠ []) (fun f =>
      upd (upd (upd f
        " ERC20 min val sent contract" (.num (listMin contract_token_values)))
        " ERC20 max val sent contract" (.num (listMax contract_token_values)))
        " ERC20 avg val sent contract" (.num (qmean contract_token_values))) f14
  let f16 := upd f15 " ERC20 uniq sent token name" (.num sent_token_names.dedup.length)
  let f17 := upd f16 " ERC20 uniq rec token name" (.num received_token_names.dedup.length)
  let f18 := applyIf (sent_token_names ≠ []) (fun f =>
      upd f " ERC20 most sent token type" (.str (mostCommon sent_token_names))) f17
  applyIf (received_token_names ≠ []) (fun f =>
      upd f " ERC20_most_rec_token_type" (.str (mostCommon received_token_names))) f18

/-- Embeds `compute_features` from `features.py`: the 47-field feature
dictionary from the native and token transaction lists and the balance
string.  `balance_wei` is a decimal integer string; Python truthiness of
the string is `balance_wei ≠ ""` (parsing is `int`, restricted here to
digit strings, the only balances the upstream client produces). -/
def compute_features (address0 : String) (eth_txs token_txs : List Tx)
    (balance_wei : String) : Features :=
  let address := address0.toLower
  if eth_txs = [] ∧ token_txs = [] then
    upd FEATURE_DEFAULTS "total ether balance"
      (.num (if balance_wei ≠ "" then wei_to_ether (balance_wei.toNat?.getD 0) else 0))
  else
    let sent_txs := sentTxs address eth_txs
    let received_txs := receivedTxs address eth_txs
    let contract_creations := contractCreations eth_txs
    let contract_txs := sent_txs.filter (fun tx =>
      contract_creations.contains (txToLower tx) || (tx.inputData.getD "0x") ≠ "0x")
    let sent_timestamps := txTimestamps sent_txs
    let received_timestamps := txTimestamps received_txs
    let all_timestamps := sent_timestamps ++ received_timestamps
    let g0 := FEATURE_DEFAULTS
    let g1 := upd g0 "Sent tnx" (.num sent_txs.length)
    let g2 := upd g1 "Received Tnx" (.num received_txs.length)
    let g3 := upd g2 "total transactions (including tnx to create contract"
      (.num eth_txs.length)
    let g4 := upd g3 "Number of Created Contracts" (.num contract_creations.length)
    let g5 := upd g4 "Avg min between sent tnx"
      (.num (compute_avg_time_between sent_timestamps))
    let g6 := upd g5 "Avg min between received tnx"
      (.num (compute_avg_time_between received_timestamps))
    let g7 := applyIf (all_timestamps ≠ []) (fun f =>
        upd f "Time Diff between first and last (Mins)"
          (.num ((((listMax (all_timestamps.map (fun t => (t : ℚ)))) -
                   (listMin (all_timestamps.map (fun t => (t : ℚ))))) : ℚ) / 60))) g6
    let g8 := upd g7 "Unique Sent To Addresses"
      (.num ((sent_txs.filterMap (fun tx => truthyLower tx.toAddr)).dedup.length))
    let g9 := upd g8 "Unique Received From Addresses"
      (.num ((received_txs.filterMap (fun tx => truthyLower tx.fromAddr)).dedup.length))
    let sent_values := txValuesEther sent_txs
    let received_values := txValuesEther received_txs
    let g10 := applyIf (received_values ≠ []) (fun f =>
        upd (upd (upd (upd f
          "min value received" (.num (listMin received_values)))
          "max value received " (.num (listMax received_values)))
          "avg val received" (.num (qmean received_values)))
          "total ether received" (.num received_values.sum)) g9
    let g11 := applyIf (sent_values ≠ []) (fun f =>
        upd (upd (upd (upd f
          "min val sent" (.num (listMin sent_values)))
          "max val sent" (.num (listMax sent_values)))
          "avg val sent" (.num (qmean sent_values)))
          "total Ether sent" (.num sent_values.sum)) g10
    let g12 := upd g11 "total ether balance"
      (.num (if balance_wei ≠ "" then wei_to_ether (balance_wei.toNat?.getD 0) else 0))
    let contract_values := txValuesEther contract_txs
    let g13 := applyIf (contract_values ≠ []) (fun f =>
        upd (upd (upd (upd f
          "min value sent to contract" (.num (listMin contract_values)))
          "max val sent to contract" (.num (listMax contract_values)))
          "avg value sent to contract" (.num (qmean contract_values)))
          "total ether sent contracts" (.num contract_values.sum)) g12
    applyIf (token_txs ≠ []) (tokenBlock address token_txs contract_creations) g13

/-!
## Model layer: `src/agent/src/model.py`

The XGBoost classifier, the fitted scaler/encoders and the SHAP explainer
are opaque external artifacts loaded at startup; we model them as function
fields of `FraudDetector`, each `Option`al exactly where the source keeps
`None` when the artifact file is missing (`model`, `scaler`, `explainer`)
or the encoder table lacks the column (`label_encoders`).  Python's
runtime `hash` is an opaque function field `pyhash`.
-/

/-- The prediction result dictionary. -/
structure PredictionResult where
  is_fraud : Bool
  fraud_probability : ℚ
  confidence : String
  model_loaded : Bool
deriving DecidableEq, Repr

/-- One attribution entry. -/
structure AttributionEntry where
  feature : String
  impact : String
  importance : ℚ
  value : FVal
  reason : String
deriving DecidableEq, Repr

/-- Embeds the `FraudDetector` state after `__init__`: each artifact is `none` when
its file was absent.  `model`, applied to the preprocessed row, is
`predict_proba(df)[0, 1]`; `explainer` applied to the row is
`explainer.shap_values(df)[0]`. -/
structure FraudDetector where
  model : Option (List ℚ → ℚ)
  scaler : Option (List ℚ → List ℚ)
  label_encoders : String → Option (String → Option ℚ)
  pyhash : String → Nat
  explainer : Option (List ℚ → List ℚ)

/-- The two categorical columns. -/
def cat_cols : List String := [" ERC20 most sent token type", " ERC20_most_rec_token_type"]

/-- Numeric reading of a feature value (numeric columns hold `.num`
values throughout the pipeline). -/
def fvalToQ : FVal → ℚ
  | .num q => q
  | .str _ => 0

/-- Python `str()` of a feature value; categorical columns hold strings,
so only the `.str` case is exercised (numeric rendering is the exact
rational's text). -/
def pyStr : FVal → String
  | .str s => s
  | .num q => toString q

/-- Categorical encoding in `_preprocess`: the fitted encoder when the
column has one (`ValueError` on an unseen category gives code 0),
otherwise `hash(val) % 1000`. -/
def encodeCat (d : FraudDetector) (col v : String) : ℚ :=
  match d.label_encoders col with
  | some enc => (enc v).getD 0
  | none => ((d.pyhash v) % 1000 : Nat)

/-- Embeds `_preprocess`: the model-input row in `FEATURE_COLUMNS` order —
categorical columns encoded, numeric columns passed (jointly) through
the fitted scaler when one is loaded. -/
def preprocessRow (d : FraudDetector) (f : Features) : List ℚ :=
  let num_cols := FEATURE_COLUMNS.filter (fun c => ¬ cat_cols.contains c)
  let numVals := num_cols.map (fun c => fvalToQ (f c))
  let scaled := match d.scaler with
    | none => numVals
    | some s => s numVals
  FEATURE_COLUMNS.map (fun c =>
    if cat_cols.contains c then encodeCat d c (pyStr (f c))
    else scaled.getD (num_cols.indexOf c) 0)

/-- Embeds `FraudDetector.predict`: placeholder when no model is loaded,
otherwise thresholding and confidence tiering on the positive-class
probability. -/
def predict (d : FraudDetector) (f : Features) : PredictionResult :=
  match d.model with
  | none =>
      { is_fraud := false, fraud_probability := 15/100,
        confidence := "low", model_loaded := false }
  | some m =>
      let prob := m (preprocessRow d f)
      { is_fraud := decide (prob ≥ 1/2)
        fraud_probability := prob
        confidence :=
          if prob ≥ 85/100 ∨ prob ≤ 15/100 then "high"
          else if prob ≥ 7/10 ∨ prob ≤ 3/10 then "medium"
          else "low"
        model_loaded := true }

/-- Python slicing `l[:n]` / pandas `head(n)`: nonnegative `n` takes the
first `n` elements; negative `n` drops the last `|n|`. -/
def pySlice {α : Type} (l : List α) (n : Int) : List α :=
  if 0 ≤ n then l.take n.toNat else l.take (l.length - (-n).toNat)

/-- Substring test (Python `pat in s`), for nonempty patterns. -/
def strContains (s pat : String) : Bool := (s.splitOn pat).length ≠ 1

/-- Embeds `_feature_to_reason`: rule-based reason rendering.  Numeric
formatting (`:.0f`, `:.1f`, `:.4f`) is abstracted as the exact
rational's text; no verified property depends on the rendered digits,
only on which branch is taken. -/
def feature_to_reason (feat : String) (value : FVal) (shap_val : ℚ) : String :=
  let fl := feat.toLower
  let _direction := if shap_val > 0 then "high" else "low"
  if strContains fl "erc20" || strContains fl "token" then
    if strContains fl "uniq" then
      "Interacted with " ++ pyStr value ++ " unique token addresses"
    else if strContains fl "total" && strContains fl "tnx" then
      "Total of " ++ pyStr value ++ " ERC-20 transactions"
    else if strContains fl "type" then
      "Most common token type: " ++ pyStr value
    else
      "Unusual ERC-20 token activity pattern"
  else if strContains fl "time" || strContains fl "diff" || strContains fl "min between" then
    if strContains fl "diff" then
      let mins := fvalToQ value
      if mins < 60 then "Account active for only " ++ toString mins ++ " minutes"
      else if mins < 1440 then "Account active for " ++ toString (mins / 60) ++ " hours"
      else "Account active for " ++ toString (mins / 1440) ++ " days"
    else
      "Average " ++ toString (fvalToQ value) ++ " minutes between transactions"
  else if strContains fl "uniq" then
    "Interacted with " ++ pyStr value ++ " unique addresses"
  else if strContains fl "val" || strContains fl "ether" || strContains fl "balance" then
    "Value metric: " ++ toString (fvalToQ value) ++ " ETH"
  else if strContains fl "sent tnx" then
    "Sent " ++ pyStr value ++ " transactions"
  else if strContains fl "received" && strContains fl "tnx" then
    "Received " ++ pyStr value ++ " transactions"
  else if strContains fl "contract" then
    "Contract interaction: " ++ pyStr value
  else
    feat.trim ++ ": " ++ pyStr value

/-- The hardcoded generically-important feature list used by
`_fallback_explanation`. -/
def important_features : List String := [
  " ERC20_most_rec_token_type",
  " Total ERC20 tnxs",
  "Time Diff between first and last (Mins)",
  "Unique Received From Addresses",
  " ERC20 most sent token type",
  "avg val received",
  "Sent tnx",
  "Unique Sent To Addresses"]

/-- The entry `_fallback_explanation` builds for one feature name
(`features.get(feat, FEATURE_DEFAULTS.get(feat, 0))` is plain
application, the feature map being total). -/
def fallbackEntry (f : Features) (feat : String) : AttributionEntry :=
  { feature := feat.trim
    impact := "unknown"
    importance := 0
    value := f feat
    reason := feature_to_reason feat (f feat) 0 }

/-- Embeds `_fallback_explanation`: the important-feature list truncated by
Python slicing (`important_features[:top_n]`). -/
def fallback_explanation (f : Features) (top_n : Int) : List AttributionEntry :=
  (pySlice important_features top_n).map (fallbackEntry f)

/-- Embeds `FraudDetector.explain`: exact SHAP mode when an explainer is
loaded, deterministic fallback otherwise.  Exact-mode ranking sorts by
absolute contribution descending (pandas `sort_values(ascending=False)`)
and truncates with `head(top_n)`. -/
def explain (d : FraudDetector) (f : Features) (top_n : Int) : List AttributionEntry :=
  match d.explainer with
  | none => fallback_explanation f top_n
  | some ex =>
      let shap := ex (preprocessRow d f)
      let ranked := (FEATURE_COLUMNS.zip shap).mergeSort
        (fun a b => decide (|a.2| ≥ |b.2|))
      (pySlice ranked top_n).map (fun (p : String × ℚ) =>
        { feature := p.1.trim
          impact := if p.2 > 0 then "increases" else "decreases"
          importance := |p.2|
          value := f p.1
          reason := feature_to_reason p.1 (f p.1) p.2 })

/-- A detector whose classifier artifact reports probability 0.84 on
every input (for instantiating the prediction contract). -/
def detector84 : FraudDetector :=
  { model := some (fun _ => 84/100), scaler := none,
    label_encoders := fun _ => none, pyhash := fun _ => 0, explainer := none }

/-- A detector configuration with every artifact missing (model,
preprocessors and explainer files absent at startup). -/
def detectorStub : FraudDetector :=
  { model := none, scaler := none, label_encoders := fun _ => none,
    pyhash := fun _ => 0, explainer := none }

/-- A token transfer record used to instantiate token-activity
hypotheses. -/
def tokTx : Tx :=
  { fromAddr := some "b", toAddr := some "a", value := some 7,
    timeStamp := some 100, tokenSymbol := some "USDT" }

/-- A received-only native transaction used for value-statistics
instantiations. -/
def rxTx : Tx :=
  { fromAddr := some "b", toAddr := some "a", value := some 6, timeStamp := some 100 }

/-- A sent native transaction carrying a value (its companion
`txNoVal` lacks one). -/
def txWithVal : Tx :=
  { fromAddr := some "a", toAddr := some "b", value := some 6, timeStamp := some 100 }

/-- A sent native transaction with no `value` field. -/
def txNoVal : Tx :=
  { fromAddr := some "a", toAddr := some "b", timeStamp := some 200 }

/-!
## Verified properties
-/

/-- Sum of pointwise division distributes over a list sum. -/
theorem sum_map_div (l : List ℚ) (c : ℚ) :
    (l.map (fun x => x / c)).sum = l.sum / c := by
  induction l with
  | nil => simp
  | cons x xs ih => simp [ih, add_div]

/-- C6: `compute_avg_time_between` returns 0 for fewer than two
timestamps, otherwise the mean of the consecutive gaps of the
ascending-sorted list divided by 60; on `[100, 160, 220]` it returns
exactly 1 minute. -/
theorem compute_avg_time_between_spec :
    (∀ ts : List Nat, ts.length < 2 → compute_avg_time_between ts = 0)
    ∧ (∀ ts : List Nat, 2 ≤ ts.length →
        compute_avg_time_between ts =
          qmean (((ts.insertionSort (· ≤ ·)).zip
                  (ts.insertionSort (· ≤ ·)).tail).map
                 (fun p => ((p.2 : ℚ) - (p.1 : ℚ)))) / 60)
    ∧ compute_avg_time_between [100, 160, 220] = 1 := by
  refine ⟨?_, ?_, by with_unfolding_all decide⟩
  · intro ts h
    simp [compute_avg_time_between, h]
  · intro ts h
    have hlen : (ts.insertionSort (· ≤ ·)).length = ts.length :=
      List.length_insertionSort _ _
    have hne : consecutiveDiffs (ts.insertionSort (· ≤ ·)) ≠ [] := by
      intro hnil
      have := congrArg List.length hnil
      simp [consecutiveDiffs, List.length_zip, hlen, List.length_tail] at this
      omega
    rw [compute_avg_time_between, if_neg (by omega), if_neg hne]
    have hmap : consecutiveDiffs (ts.insertionSort (· ≤ ·)) =
        (((ts.insertionSort (· ≤ ·)).zip
          (ts.insertionSort (· ≤ ·)).tail).map
         (fun p => ((p.2 : ℚ) - (p.1 : ℚ)))).map (fun x => x / 60) := by
      simp [consecutiveDiffs, List.map_map]
    rw [hmap]
    simp only [qmean, sum_map_div, List.length_map]
    rw [div_div, div_div, mul_comm]

/-- Witness for C6 at concrete inputs. -/
theorem compute_avg_time_between_spec_witness :
    compute_avg_time_between [42] = 0 :=
  compute_avg_time_between_spec.1 [42] (by decide)

/-- C2: with a loaded classifier yielding positive-class probability `p`
on the preprocessed input, `predict` thresholds at 0.5 and tiers
confidence at 0.85/0.15 (high) and 0.70/0.30 (medium); in particular
`p = 0.5` is fraud, `p = 0.84` is medium, `p = 0.9` is high. -/
theorem predict_threshold_confidence (d : FraudDetector) (m : List ℚ → ℚ)
    (f : Features) (p : ℚ) (hm : d.model = some m)
    (hp : m (preprocessRow d f) = p) :
    (predict d f).is_fraud = decide (p ≥ 1/2)
    ∧ ((predict d f).confidence = "high" ↔ (p ≥ 85/100 ∨ p ≤ 15/100))
    ∧ ((predict d f).confidence = "medium" ↔
        ((p ≥ 7/10 ∨ p ≤ 3/10) ∧ ¬(p ≥ 85/100 ∨ p ≤ 15/100)))
    ∧ ((predict d f).confidence = "low" ↔
        (¬(p ≥ 85/100 ∨ p ≤ 15/100) ∧ ¬(p ≥ 7/10 ∨ p ≤ 3/10)))
    ∧ (p = 1/2 → (predict d f).is_fraud = true)
    ∧ (p = 84/100 → (predict d f).confidence = "medium")
    ∧ (p = 9/10 → (predict d f).confidence = "high") := by
  have hpred : predict d f =
      { is_fraud := decide (p ≥ 1/2)
        fraud_probability := p
        confidence :=
          if p ≥ 85/100 ∨ p ≤ 15/100 then "high"
          else if p ≥ 7/10 ∨ p ≤ 3/10 then "medium"
          else "low"
        model_loaded := true } := by
    simp [predict, hm, hp]
  rw [hpred]
  refine ⟨rfl, ?_, ?_, ?_, ?_, ?_, ?_⟩
  · split_ifs with h1 h2 <;> simp_all
  · split_ifs with h1 h2 <;> simp_all
  · split_ifs with h1 h2 <;> simp_all
  · intro h; subst h; with_unfolding_all decide
  · intro h; subst h; with_unfolding_all decide
  · intro h; subst h; with_unfolding_all decide

/-- Witness for C2 at probability 0.84. -/
theorem predict_threshold_confidence_witness :
    (predict detector84 FEATURE_DEFAULTS).confidence = "medium" :=
  (predict_threshold_confidence detector84 (fun _ => 84/100) FEATURE_DEFAULTS
    (84/100) rfl rfl).2.2.2.2.2.1 rfl

/-- C7: with no classifier loaded, `predict` returns the fixed
placeholder result on every feature vector, in particular on every
output of the feature extractor — composing `compute_features` with the
preprocessing and classification step under a missing-model
configuration is constant. -/
theorem predict_missing_model (d : FraudDetector) (hd : d.model = none) :
    (∀ f : Features, predict d f =
      { is_fraud := false, fraud_probability := 15/100,
        confidence := "low", model_loaded := false })
    ∧ (∀ (addr : String) (eth_txs token_txs : List Tx) (bal : String),
        predict d (compute_features addr eth_txs token_txs bal) =
          { is_fraud := false, fraud_probability := 15/100,
            confidence := "low", model_loaded := false }) := by
  refine ⟨fun f => ?_, fun addr e t b => ?_⟩ <;> simp [predict, hd]

/-- Witness for C7 on a concrete missing-model run. -/
theorem predict_missing_model_witness :
    predict detectorStub
        (compute_features "0xAb" [{ fromAddr := some "0xab", value := some 3 }] [] "7") =
      { is_fraud := false, fraud_probability := 15/100,
        confidence := "low", model_loaded := false } :=
  (predict_missing_model detectorStub rfl).2 "0xAb"
    [{ fromAddr := some "0xab", value := some 3 }] [] "7"

/-- C8: in fallback mode (no explainer), `explain` returns the entries
of the fixed important-feature list truncated to `topN`, each with
impact `unknown` and importance 0; and `topN = 0` yields the empty list
in both exact and fallback modes. -/
theorem explain_fallback_spec :
    (∀ (d : FraudDetector) (f : Features) (n : Int), d.explainer = none → 0 ≤ n →
      (explain d f n).map (fun e => e.feature)
          = (important_features.take n.toNat).map String.trim
      ∧ ∀ e ∈ explain d f n, e.impact = "unknown" ∧ e.importance = 0)
    ∧ (∀ (d : FraudDetector) (f : Features), explain d f 0 = []) := by
  constructor
  · intro d f n hd hn
    constructor
    · simp [explain, hd, fallback_explanation, pySlice, hn, fallbackEntry, List.map_map]
      rfl
    · intro e he
      simp [explain, hd, fallback_explanation, List.mem_map] at he
      obtain ⟨feat, -, hfe⟩ := he
      simp [← hfe, fallbackEntry]
  · intro d f
    cases hd : d.explainer with
    | none => simp [explain, hd, fallback_explanation, pySlice]
    | some ex => simp [explain, hd, pySlice]

/-- Witness for C8 at `topN = 2` on the stub detector. -/
theorem explain_fallback_spec_witness :
    (explain detectorStub FEATURE_DEFAULTS 2).map (fun e => e.feature)
        = (important_features.take (2 : Int).toNat).map String.trim
    ∧ ∀ e ∈ explain detectorStub FEATURE_DEFAULTS 2,
        e.impact = "unknown" ∧ e.importance = 0 :=
  explain_fallback_spec.1 detectorStub FEATURE_DEFAULTS 2 rfl (by decide)

/-- Counterexample to C9: `explain` with `topN = -1` does not raise any
error — embedded from the source it is a total function that silently
applies Python slice semantics and returns the first 7 fallback
entries. -/
theorem explain_negative_returns :
    (explain detectorStub FEATURE_DEFAULTS (-1)).length = 7
    ∧ explain detectorStub FEATURE_DEFAULTS (-1) ≠ [] := by
  have h : explain detectorStub FEATURE_DEFAULTS (-1)
      = (pySlice important_features (-1)).map (fallbackEntry FEATURE_DEFAULTS) := rfl
  rw [h]
  constructor
  · rw [List.length_map]
    decide
  · simp [pySlice, important_features]

/-- C9 amended: a negative `topN` is not an error: in fallback mode
`explain` returns the fixed list minus its last `|topN|` entries
(Python slice `important_features[:topN]`). -/
theorem explain_negative_slice (d : FraudDetector) (f : Features) (n : Int)
    (hd : d.explainer = none) (hn : n < 0) :
    explain d f n =
      (important_features.take (important_features.length - (-n).toNat)).map
        (fallbackEntry f) := by
  have hnot : ¬ 0 ≤ n := by omega
  simp [explain, hd, fallback_explanation, pySlice, hnot]

/-- Witness for the amended C9 at `topN = -2`. -/
theorem explain_negative_slice_witness :
    explain detectorStub FEATURE_DEFAULTS (-2) =
      (important_features.take (important_features.length - (-(-2 : Int)).toNat)).map
        (fallbackEntry FEATURE_DEFAULTS) :=
  explain_negative_slice detectorStub FEATURE_DEFAULTS (-2) rfl (by decide)

/-- Reading an update at its own key yields the stored value. -/
theorem upd_read_eq (f : Features) (k : String) (v : FVal) : upd f k v k = v :=
  if_pos rfl

/-- Reading an update at another key passes through. -/
theorem upd_read_ne (f : Features) {q k : String} (v : FVal) (h : ¬ q = k) :
    upd f k v q = f q := if_neg h

/-- Reading a self-read update at its own key yields the source key's
value. -/
theorem updRead_read_eq (kSrc : String) (f : Features) (k : String) :
    updRead k kSrc f k = f kSrc := if_pos rfl

/-- Reading a self-read update at another key passes through. -/
theorem updRead_read_ne {q k : String} (kSrc : String) (f : Features) (h : ¬ q = k) :
    updRead k kSrc f q = f q := if_neg h

/-- Reading through a conditional update block. -/
theorem applyIf_read (c : Prop) [inst : Decidable c] (g : Features → Features)
    (f : Features) (q : String) : applyIf c g f q = if c then g f q else f q := by
  unfold applyIf
  split <;> rfl

/-- C5: whenever at least one token transaction exists, the two
schema-quirk fields mirror their source fields exactly:
`' ERC20 uniq sent addr.1'` equals `' ERC20 uniq sent addr'` and
`' ERC20 avg time between rec 2 tnx'` equals
`' ERC20 avg time between rec tnx'`. -/
theorem erc20_mirror_fields (addr bal : String) (eth_txs token_txs : List Tx)
    (ht : token_txs ≠ []) :
    (compute_features addr eth_txs token_txs bal) " ERC20 uniq sent addr.1"
      = (compute_features addr eth_txs token_txs bal) " ERC20 uniq sent addr"
    ∧ (compute_features addr eth_txs token_txs bal) " ERC20 avg time between rec 2 tnx"
      = (compute_features addr eth_txs token_txs bal) " ERC20 avg time between rec tnx" := by
  have hcond : ¬ (eth_txs = [] ∧ token_txs = []) := fun h => ht h.2
  constructor <;>
    simp [compute_features, tokenBlock, hcond, ht, applyIf_read,
      upd_read_eq, upd_read_ne, updRead_read_eq, updRead_read_ne]

/-- Witness for C5 on a concrete token transfer. -/
theorem erc20_mirror_fields_witness :
    (compute_features "a" [] [tokTx] "0") " ERC20 uniq sent addr.1"
      = (compute_features "a" [] [tokTx] "0") " ERC20 uniq sent addr"
    ∧ (compute_features "a" [] [tokTx] "0") " ERC20 avg time between rec 2 tnx"
      = (compute_features "a" [] [tokTx] "0") " ERC20 avg time between rec tnx" :=
  erc20_mirror_fields "a" "0" [] [tokTx] (by decide)

/-- C10: with an empty native transaction list but a non-empty token
list, the native activity fields are overwritten with 0 (replacing their
non-zero defaults) and the two average-gap fields with 0.0, while
`Time Diff between first and last (Mins)` keeps its default. -/
theorem token_only_native_fields (addr bal : String) (token_txs : List Tx)
    (ht : token_txs ≠ []) :
    (compute_features addr [] token_txs bal) "Sent tnx" = FVal.num 0
    ∧ (compute_features addr [] token_txs bal) "Received Tnx" = FVal.num 0
    ∧ (compute_features addr [] token_txs bal)
        "total transactions (including tnx to create contract" = FVal.num 0
    ∧ (compute_features addr [] token_txs bal) "Number of Created Contracts" = FVal.num 0
    ∧ (compute_features addr [] token_txs bal) "Unique Sent To Addresses" = FVal.num 0
    ∧ (compute_features addr [] token_txs bal) "Unique Received From Addresses" = FVal.num 0
    ∧ (compute_features addr [] token_txs bal) "Avg min between sent tnx" = FVal.num 0
    ∧ (compute_features addr [] token_txs bal) "Avg min between received tnx" = FVal.num 0
    ∧ (compute_features addr [] token_txs bal) "Time Diff between first and last (Mins)"
        = FEATURE_DEFAULTS "Time Diff between first and last (Mins)" := by
  have hcond : ¬ (([] : List Tx) = [] ∧ token_txs = []) := fun h => ht h.2
  refine ⟨?_, ?_, ?_, ?_, ?_, ?_, ?_, ?_, ?_⟩ <;>
    simp [compute_features, tokenBlock, hcond, ht, applyIf_read,
      upd_read_eq, upd_read_ne, updRead_read_eq, updRead_read_ne,
      sentTxs, receivedTxs, contractCreations, txTimestamps, txValuesEther,
      compute_avg_time_between]

/-- Witness for C10 on a concrete token transfer. -/
theorem token_only_native_fields_witness :
    (compute_features "a" [] [tokTx] "0") "Sent tnx" = FVal.num 0
    ∧ (compute_features "a" [] [tokTx] "0") "Time Diff between first and last (Mins)"
        = FEATURE_DEFAULTS "Time Diff between first and last (Mins)" :=
  ⟨(token_only_native_fields "a" "0" [tokTx] (by decide)).1,
   (token_only_native_fields "a" "0" [tokTx] (by decide)).2.2.2.2.2.2.2.2⟩

/-- C1: with both transaction lists empty, every non-balance field keeps
its default and `total ether balance` is the parsed balance divided by
`10^18`, for every decimal balance string. -/
theorem compute_features_empty (addr bal : String) (n : Nat)
    (hb : bal.toNat? = some n) :
    (compute_features addr [] [] bal) "total ether balance"
        = FVal.num ((n : ℚ) / 10 ^ 18)
    ∧ ∀ c ∈ FEATURE_COLUMNS, c ≠ "total ether balance" →
        (compute_features addr [] [] bal) c = FEATURE_DEFAULTS c := by
  have h0 : ("" : String).toNat? = none := by with_unfolding_all decide
  have hne : bal ≠ "" := by
    intro h
    rw [h, h0] at hb
    exact Option.noConfusion hb
  constructor
  · simp [compute_features, upd, hne, hb, wei_to_ether]
  · intro c _ hc
    simp [compute_features, upd, hc]

/-- Witness for C1 on a concrete balance string; the division by
`10^18` is the one the spec's `2500000000000000000 → 2.5` example
instantiates. -/
theorem compute_features_empty_witness :
    (compute_features "A" [] [] "250") "total ether balance"
        = FVal.num ((250 : ℚ) / 10 ^ 18)
    ∧ (compute_features "A" [] [] "250") "Sent tnx" = FEATURE_DEFAULTS "Sent tnx" :=
  ⟨(compute_features_empty "A" "250" 250 (by with_unfolding_all decide)).1,
   (compute_features_empty "A" "250" 250 (by with_unfolding_all decide)).2
     "Sent tnx" (by decide) (by decide)⟩

/-- Counterexample to C4: on a wallet with one received and no sent
native transaction, `total Ether sent` is not computed (it keeps its
default 1.0); it is not the directly-computed cumulative sum 0.0 of the
empty sent set. -/
theorem total_sent_kept_default :
    (compute_features "a" [rxTx] [] "0") "total Ether sent"
        ≠ FVal.num ((txValuesEther (sentTxs "a" [rxTx])).sum)
    ∧ (compute_features "a" [rxTx] [] "0") "total Ether sent"
        = FEATURE_DEFAULTS "total Ether sent" := by
  with_unfolding_all decide

/-- C4 amended: min/max/mean *and the cumulative sums* are overwritten
exactly when the underlying value set is non-empty (an empty set leaves
all four at their defaults); only the balance field is always computed
directly. -/
theorem value_stats_guarded (addr bal : String) (eth_txs token_txs : List Tx) :
    (txValuesEther (sentTxs addr.toLower eth_txs) = [] →
       (compute_features addr eth_txs token_txs bal) "min val sent"
           = FEATURE_DEFAULTS "min val sent"
       ∧ (compute_features addr eth_txs token_txs bal) "max val sent"
           = FEATURE_DEFAULTS "max val sent"
       ∧ (compute_features addr eth_txs token_txs bal) "avg val sent"
           = FEATURE_DEFAULTS "avg val sent"
       ∧ (compute_features addr eth_txs token_txs bal) "total Ether sent"
           = FEATURE_DEFAULTS "total Ether sent")
    ∧ (txValuesEther (sentTxs addr.toLower eth_txs) ≠ [] →
       (compute_features addr eth_txs token_txs bal) "min val sent"
           = FVal.num (listMin (txValuesEther (sentTxs addr.toLower eth_txs)))
       ∧ (compute_features addr eth_txs token_txs bal) "max val sent"
           = FVal.num (listMax (txValuesEther (sentTxs addr.toLower eth_txs)))
       ∧ (compute_features addr eth_txs token_txs bal) "avg val sent"
           = FVal.num (qmean (txValuesEther (sentTxs addr.toLower eth_txs)))
       ∧ (compute_features addr eth_txs token_txs bal) "total Ether sent"
           = FVal.num ((txValuesEther (sentTxs addr.toLower eth_txs)).sum))
    ∧ (txValuesEther (receivedTxs addr.toLower eth_txs) = [] →
       (compute_features addr eth_txs token_txs bal) "min value received"
           = FEATURE_DEFAULTS "min value received"
       ∧ (compute_features addr eth_txs token_txs bal) "max value received "
           = FEATURE_DEFAULTS "max value received "
       ∧ (compute_features addr eth_txs token_txs bal) "avg val received"
           = FEATURE_DEFAULTS "avg val received"
       ∧ (compute_features addr eth_txs token_txs bal) "total ether received"
           = FEATURE_DEFAULTS "total ether received")
    ∧ (txValuesEther (receivedTxs addr.toLower eth_txs) ≠ [] →
       (compute_features addr eth_txs token_txs bal) "min value received"
           = FVal.num (listMin (txValuesEther (receivedTxs addr.toLower eth_txs)))
       ∧ (compute_features addr eth_txs token_txs bal) "max value received "
           = FVal.num (listMax (txValuesEther (receivedTxs addr.toLower eth_txs)))
       ∧ (compute_features addr eth_txs token_txs bal) "avg val received"
           = FVal.num (qmean (txValuesEther (receivedTxs addr.toLower eth_txs)))
       ∧ (compute_features addr eth_txs token_txs bal) "total ether received"
           = FVal.num ((txValuesEther (receivedTxs addr.toLower eth_txs)).sum))
    ∧ (compute_features addr eth_txs token_txs bal) "total ether balance"
        = FVal.num (if bal ≠ "" then wei_to_ether (bal.toNat?.getD 0) else 0) := by
  by_cases hc : eth_txs = [] ∧ token_txs = []
  · obtain ⟨h1, h2⟩ := hc
    subst h1
    subst h2
    refine ⟨?_, ?_, ?_, ?_, ?_⟩ <;>
      simp [compute_features, upd, sentTxs, receivedTxs, txValuesEther]
  · refine ⟨fun h => ⟨?_, ?_, ?_, ?_⟩, fun h => ⟨?_, ?_, ?_, ?_⟩,
      fun h => ⟨?_, ?_, ?_, ?_⟩, fun h => ⟨?_, ?_, ?_, ?_⟩, ?_⟩ <;>
      simp [compute_features, tokenBlock, hc, applyIf_read,
        upd_read_eq, upd_read_ne, updRead_read_eq, updRead_read_ne, *]

/-- Witness for the amended C4: the received side of `rxTx` is computed,
the sent side keeps all four defaults. -/
theorem value_stats_guarded_witness :
    ((compute_features "a" [rxTx] [] "0") "min val sent"
         = FEATURE_DEFAULTS "min val sent"
     ∧ (compute_features "a" [rxTx] [] "0") "max val sent"
         = FEATURE_DEFAULTS "max val sent"
     ∧ (compute_features "a" [rxTx] [] "0") "avg val sent"
         = FEATURE_DEFAULTS "avg val sent"
     ∧ (compute_features "a" [rxTx] [] "0") "total Ether sent"
         = FEATURE_DEFAULTS "total Ether sent")
    ∧ ((compute_features "a" [rxTx] [] "0") "min value received"
         = FVal.num (listMin (txValuesEther (receivedTxs "a".toLower [rxTx])))
       ∧ (compute_features "a" [rxTx] [] "0") "max value received "
         = FVal.num (listMax (txValuesEther (receivedTxs "a".toLower [rxTx])))
       ∧ (compute_features "a" [rxTx] [] "0") "avg val received"
         = FVal.num (qmean (txValuesEther (receivedTxs "a".toLower [rxTx])))
       ∧ (compute_features "a" [rxTx] [] "0") "total ether received"
         = FVal.num ((txValuesEther (receivedTxs "a".toLower [rxTx])).sum)) :=
  ⟨(value_stats_guarded "a" "0" [rxTx] []).1 (by with_unfolding_all decide),
   (value_stats_guarded "a" "0" [rxTx] []).2.2.2.1 (by with_unfolding_all decide)⟩

/-- Counterexample to C3: a sent transaction lacking `value` is *not*
excluded from the value list — it enters min/avg/max as a coerced 0.0:
the minimum becomes 0, not the minimum 6·10⁻¹⁸ of the records that
carry a value. -/
theorem missing_value_pollutes_stats :
    (compute_features "a" [txWithVal, txNoVal] [] "0") "min val sent" = FVal.num 0
    ∧ (compute_features "a" [txWithVal, txNoVal] [] "0") "min val sent"
        ≠ FVal.num (listMin (txValuesEther [txWithVal])) := by
  with_unfolding_all decide

/-- C3 amended: records lacking `timeStamp` are excluded from the
timestamp lists feeding the average-gap features, but records lacking
`value` are *not* excluded from the value lists: the missing value is
coerced to 0 units and enters min/avg/max as well as the sums. -/
theorem missing_fields_handling (addr bal : String) (eth_txs token_txs : List Tx)
    (hcond : ¬ (eth_txs = [] ∧ token_txs = [])) :
    (compute_features addr eth_txs token_txs bal) "Avg min between sent tnx"
        = FVal.num (compute_avg_time_between
            ((sentTxs addr.toLower eth_txs).filterMap Tx.timeStamp))
    ∧ (compute_features addr eth_txs token_txs bal) "Avg min between received tnx"
        = FVal.num (compute_avg_time_between
            ((receivedTxs addr.toLower eth_txs).filterMap Tx.timeStamp))
    ∧ (sentTxs addr.toLower eth_txs ≠ [] →
        (compute_features addr eth_txs token_txs bal) "min val sent"
          = FVal.num (listMin ((sentTxs addr.toLower eth_txs).map
              (fun tx => wei_to_ether (tx.value.getD 0))))
        ∧ (compute_features addr eth_txs token_txs bal) "avg val sent"
          = FVal.num (qmean ((sentTxs addr.toLower eth_txs).map
              (fun tx => wei_to_ether (tx.value.getD 0))))) := by
  refine ⟨?_, ?_, fun h => ⟨?_, ?_⟩⟩ <;>
    simp [compute_features, tokenBlock, hcond, applyIf_read, txTimestamps, txValuesEther,
      upd_read_eq, upd_read_ne, updRead_read_eq, updRead_read_ne, *]

/-- Witness for the amended C3 on the two-transaction wallet. -/
theorem missing_fields_handling_witness :
    (compute_features "a" [txWithVal, txNoVal] [] "0") "Avg min between sent tnx"
        = FVal.num (compute_avg_time_between
            ((sentTxs "a".toLower [txWithVal, txNoVal]).filterMap Tx.timeStamp))
    ∧ ((compute_features "a" [txWithVal, txNoVal] [] "0") "min val sent"
          = FVal.num (listMin ((sentTxs "a".toLower [txWithVal, txNoVal]).map
              (fun tx => wei_to_ether (tx.value.getD 0))))
       ∧ (compute_features "a" [txWithVal, txNoVal] [] "0") "avg val sent"
          = FVal.num (qmean ((sentTxs "a".toLower [txWithVal, txNoVal]).map
              (fun tx => wei_to_ether (tx.value.getD 0))))) :=
  ⟨(missing_fields_handling "a" "0" [txWithVal, txNoVal] [] (by simp)).1,
   (missing_fields_handling "a" "0" [txWithVal, txNoVal] [] (by simp)).2.2
     (by with_unfolding_all decide)⟩
